import Mathlib

/-!
Verification of the joystick polling program (`simple_joystick.cpp`).

Floating-point values of the source (`float`) are modelled as exact
rationals `ℚ`; machine integers as `ℤ`/`Nat`.  The mutex-guarded
`current_data_` store is modelled as an explicit state record, the
SDL event handlers as pure state-transition functions, and the
edge-triggered consumer loop of `main` as a function from the previous
button state and the current snapshot to the list of emitted commands.
-/

/-- The snapshot held by the store (`struct JoystickData`): normalized
axis values and pressed-state of every button. -/
structure JoystickData where
  axes : List ℚ
  buttons : List Bool
deriving DecidableEq

/-- State of a `SimpleJoystick` object: the instance id of the open
device (`joystick_`, `none` when no device is open) and the guarded
snapshot `current_data_`. -/
structure JoystickState where
  joystick : Option ℤ
  data : JoystickData
deriving DecidableEq

/-- The deadzone constant of `handleAxisEvent` (`DEADZONE = 0.1f`). -/
def DEADZONE : ℚ := 1/10

/-- The normalization performed in `handleAxisEvent`: divide the raw
value by 32767, clamp first from above to 1 then from below to -1,
and snap values whose absolute value is below the deadzone to 0. -/
def normalizeAxis (raw : ℤ) : ℚ :=
  let v0 : ℚ := (raw : ℚ) / 32767
  let v1 : ℚ := if v0 > 1 then 1 else v0
  let v2 : ℚ := if v1 < -1 then -1 else v1
  if |v2| < DEADZONE then 0 else v2

/-- Semantics of C++ `std::vector::resize(n, fill)`: keep the first
`n` existing elements and append copies of `fill` up to length `n`. -/
def listResize {α : Type} (l : List α) (n : Nat) (fill : α) : List α :=
  l.take n ++ List.replicate (n - l.length) fill

/-- The store-updating part of `SimpleJoystick::initJoystick`: resize
the axes sequence to the device's axis count (filling with `0.0f`) and
the buttons sequence to its button count (filling with `false`). -/
def initJoystick (d : JoystickData) (numAxes numButtons : Nat) : JoystickData :=
  { axes := listResize d.axes numAxes 0
    buttons := listResize d.buttons numButtons false }

/-- `SimpleJoystick::getData`: a copy of the stored snapshot. -/
def getData (s : JoystickState) : JoystickData :=
  s.data

/-- `SimpleJoystick::handleAxisEvent`: return unchanged when no device
is open; otherwise normalize the raw value and write it at the event's
axis index when that index is inside the stored axes sequence,
silently dropping the event otherwise. -/
def handleAxisEvent (s : JoystickState) (axis : Nat) (raw : ℤ) : JoystickState :=
  match s.joystick with
  | none => s
  | some _ =>
    let value := normalizeAxis raw
    if axis < s.data.axes.length then
      { s with data := { s.data with axes := s.data.axes.set axis value } }
    else s

/-- The SDL `SDL_PRESSED` sentinel. -/
def SDL_PRESSED : Nat := 1

/-- `SimpleJoystick::handleButtonEvent`: return unchanged when no
device is open; otherwise store whether the raw state equals
`SDL_PRESSED` at the event's button index when that index is inside
the stored buttons sequence, silently dropping the event otherwise. -/
def handleButtonEvent (s : JoystickState) (button : Nat) (state : Nat) : JoystickState :=
  match s.joystick with
  | none => s
  | some _ =>
    if button < s.data.buttons.length then
      { s with data := { s.data with buttons := s.data.buttons.set button (state == SDL_PRESSED) } }
    else s

/-- The `SDL_JOYDEVICEREMOVED` branch of `SimpleJoystick::eventLoop`:
close the device only when one is open and the event's instance id
equals the open device's id; the stored snapshot is never touched. -/
def handleDeviceRemoved (s : JoystickState) (which : ℤ) : JoystickState :=
  match s.joystick with
  | none => s
  | some jid => if which = jid then { s with joystick := none } else s

/-- The `SDL_JOYDEVICEADDED` branch of `SimpleJoystick::eventLoop`:
open the device and resize the store only when no device is open. -/
def handleDeviceAdded (s : JoystickState) (which : ℤ) (numAxes numButtons : Nat) :
    JoystickState :=
  match s.joystick with
  | none => { joystick := some which, data := initJoystick s.data numAxes numButtons }
  | some _ => s

/-- The fixed button-index-to-command table of the consumer loop in
`main` (`i == 0` emits command 3, `i == 1` emits 1, `i == 2` emits 2,
`i == 3` emits 4, any other index emits nothing). -/
def commandFor (i : Nat) : Option Nat :=
  if i = 0 then some 3
  else if i = 1 then some 1
  else if i = 2 then some 2
  else if i = 3 then some 4
  else none

/-- One iteration of the button loop in `main` at index `i`: a command
(tagged with its button index) is emitted exactly when the current
snapshot has the button pressed, the previous state does not, and the
index has an entry in the command table. -/
def emitAt (last buttons : List Bool) (i : Nat) : Option (Nat × Nat) :=
  if buttons.getD i false && !(last.getD i false) then
    (commandFor i).map fun c => (i, c)
  else none

/-- The (index, command-id) pairs emitted by one pass of the button
loop in `main`, which iterates `i` over `0 ≤ i < data.buttons.size()`. -/
def emittedCommands (last buttons : List Bool) : List (Nat × Nat) :=
  (List.range buttons.length).filterMap (emitAt last buttons)

/-- One tick of the consumer loop in `main`: when `running_` is false
nothing is rendered, nothing is emitted and the previous button state
`last_button_state` is left untouched; when it is true the snapshot is
rendered, the edge commands are emitted and `last_button_state` is set
to the snapshot's buttons. Result: ((rendered snapshot, commands),
new previous-button state). -/
def consumerTick (running : Bool) (d : JoystickData) (last : List Bool) :
    (Option JoystickData × List (Nat × Nat)) × List Bool :=
  if running then ((some d, emittedCommands last d.buttons), d.buttons)
  else ((none, []), last)

/-- The consumer loop over a sequence of snapshots, carrying
`last_button_state`. -/
def consumerRunAux (last : List Bool) : List JoystickData → List (List (Nat × Nat))
  | [] => []
  | d :: rest => emittedCommands last d.buttons :: consumerRunAux d.buttons rest

/-- The consumer loop of `main` over a sequence of snapshots:
`static std::vector<bool> last_button_state = data.buttons` means the
previous state is created, on the first tick, as a copy of the first
snapshot's buttons. -/
def consumerRun : List JoystickData → List (List (Nat × Nat))
  | [] => []
  | d :: rest => consumerRunAux d.buttons (d :: rest)

/-- The clamp of the spec's `normalizeAxis` contract, written as
`max`/`min`: the quotient clamped to `[-1, 1]`. -/
def clampSpec (v : ℚ) : ℚ := max (-1) (min 1 v)

/-- A single stored axis value as constrained by the spec's invariant:
in `[-1, 1]` and snapped to 0 inside the deadzone. -/
def axisOK (v : ℚ) : Prop := -1 ≤ v ∧ v ≤ 1 ∧ (|v| < DEADZONE → v = 0)

instance (v : ℚ) : Decidable (axisOK v) := by
  unfold axisOK
  infer_instance

/-- The spec's invariant on the stored axes sequence. -/
def axesInv (l : List ℚ) : Prop := ∀ v ∈ l, axisOK v

instance (l : List ℚ) : Decidable (axesInv l) := by
  unfold axesInv
  infer_instance

/-! ### Helper lemmas about the emission loop -/

lemma emitAt_fst {last buttons : List Bool} {i : Nat} {p : Nat × Nat}
    (h : emitAt last buttons i = some p) : p.1 = i := by
  unfold emitAt at h
  split at h
  · rcases hc : commandFor i with _ | c <;> rw [hc] at h
    · simp at h
    · simp at h
      rw [← h]
  · simp at h

lemma countP_filterMap_emitAt (last buttons : List Bool) (i : Nat) (l : List Nat) :
    (l.filterMap (emitAt last buttons)).countP (fun p => p.1 == i) =
      l.count i * (if (emitAt last buttons i).isSome then 1 else 0) := by
  induction l with
  | nil => simp
  | cons j l ih =>
    rw [List.filterMap_cons, List.count_cons]
    rcases hj : emitAt last buttons j with _ | p
    · by_cases hji : j = i
      · subst hji
        rw [hj]
        simp only [Option.isSome_none, Bool.false_eq_true, if_false, Nat.mul_zero] at ih ⊢
        simpa [hj] using ih
      · simp [hji, ih]
    · have hfst : p.1 = j := emitAt_fst hj
      rw [List.countP_cons]
      by_cases hji : j = i
      · subst hji
        rw [hj]
        simp [ih, hj, hfst, Nat.add_mul]
      · simp [ih, hji, hfst]

lemma count_range_eq (i n : Nat) : (List.range n).count i = if i < n then 1 else 0 := by
  by_cases h : i < n
  · rw [if_pos h]
    exact List.count_eq_one_of_mem (List.nodup_range n) (List.mem_range.mpr h)
  · rw [if_neg h]
    exact List.count_eq_zero_of_not_mem (by simpa using h)

lemma countP_emittedCommands (last buttons : List Bool) (i : Nat) :
    (emittedCommands last buttons).countP (fun p => p.1 == i) =
      (if i < buttons.length then 1 else 0) *
        (if (emitAt last buttons i).isSome then 1 else 0) := by
  unfold emittedCommands
  rw [countP_filterMap_emitAt, count_range_eq]

lemma emitAt_isSome (last buttons : List Bool) (i : Nat) :
    (emitAt last buttons i).isSome =
      (buttons.getD i false && !(last.getD i false) && (commandFor i).isSome) := by
  unfold emitAt
  cases hb : (buttons.getD i false && !(last.getD i false))
  · simp
  · rcases hc : commandFor i with _ | c <;> simp [hc]

lemma commandFor_isSome (i : Nat) : (commandFor i).isSome = decide (i ≤ 3) := by
  rcases i with _ | _ | _ | _ | i <;> simp [commandFor]

lemma emittedCommands_self (bs : List Bool) : emittedCommands bs bs = [] := by
  unfold emittedCommands
  refine List.filterMap_eq_nil_iff.mpr fun i _ => ?_
  unfold emitAt
  rw [if_neg]
  simp [Bool.and_not_self]

/-! ### Helper lemmas about the event handlers -/

lemma handleAxisEvent_some (jid : ℤ) (d : JoystickData) (axis : Nat) (raw : ℤ) :
    handleAxisEvent ⟨some jid, d⟩ axis raw =
      if axis < d.axes.length
      then ⟨some jid, { d with axes := d.axes.set axis (normalizeAxis raw) }⟩
      else ⟨some jid, d⟩ := rfl

lemma handleButtonEvent_some (jid : ℤ) (d : JoystickData) (button st : Nat) :
    handleButtonEvent ⟨some jid, d⟩ button st =
      if button < d.buttons.length
      then ⟨some jid, { d with buttons := d.buttons.set button (st == SDL_PRESSED) }⟩
      else ⟨some jid, d⟩ := rfl

lemma getD_set_ne {α : Type} (l : List α) (i k : Nat) (a dflt : α) (h : i ≠ k) :
    (l.set i a).getD k dflt = l.getD k dflt := by
  rw [List.getD_eq_getElem?_getD, List.getD_eq_getElem?_getD, List.getElem?_set_ne h]

lemma getD_set_self {α : Type} (l : List α) (i : Nat) (a dflt : α) (h : i < l.length) :
    (l.set i a).getD i dflt = a := by
  rw [List.getD_eq_getElem?_getD, List.getElem?_set_self h]
  rfl

/-! ### Claim theorems -/

/-- C10: the previous-button state of the consumer loop is created, on
the very first tick, as a copy of the first snapshot's buttons (the
`static` local is not all-false), so the first tick emits no command:
startup never produces phantom press edges, even for buttons already
pressed in the first observed snapshot. -/
theorem C10_first_tick_no_phantom (d : JoystickData) (rest : List JoystickData) :
    consumerRun (d :: rest) = [] :: consumerRunAux d.buttons rest := by
  show consumerRunAux d.buttons (d :: rest) = [] :: consumerRunAux d.buttons rest
  rw [consumerRunAux, emittedCommands_self]

/-- C7: on a consumer tick where the run flag is false nothing is
rendered, no command is emitted and the previous-button state is
frozen; on a tick where it is true the snapshot is rendered, the edge
commands fire and the previous-button state is updated to the
snapshot's buttons unconditionally. -/
theorem C7_runstate_gating (running : Bool) (d : JoystickData) (last : List Bool) :
    (running = false → consumerTick running d last = ((none, []), last)) ∧
    (running = true →
      (consumerTick running d last).1.1 = some d ∧
      (consumerTick running d last).1.2 = emittedCommands last d.buttons ∧
      (consumerTick running d last).2 = d.buttons) := by
  cases running <;> simp [consumerTick]

/-- Witness for C7 at a concrete stopped tick. -/
theorem C7_runstate_gating_witness :
    (false = false) ∧
    consumerTick false ⟨[], [true]⟩ [false] = ((none, []), [false]) :=
  ⟨rfl, (C7_runstate_gating false ⟨[], [true]⟩ [false]).1 rfl⟩

/-- C8: a device-detached event whose instance id differs from the id
of the open device changes nothing: the handle stays open and the
stored snapshot is untouched. -/
theorem C8_detach_mismatch (s : JoystickState) (x y : ℤ)
    (hopen : s.joystick = some y) (hne : x ≠ y) :
    handleDeviceRemoved s x = s := by
  rcases s with ⟨j, d⟩
  simp only at hopen
  subst hopen
  simp [handleDeviceRemoved, hne]

/-- Witness for C8: detach event for id 5 while device 2 is open. -/
theorem C8_detach_mismatch_witness :
    (⟨some 2, ⟨[], []⟩⟩ : JoystickState).joystick = some 2 ∧ (5 : ℤ) ≠ 2 ∧
    handleDeviceRemoved ⟨some 2, ⟨[], []⟩⟩ 5 = ⟨some 2, ⟨[], []⟩⟩ :=
  ⟨rfl, by decide, C8_detach_mismatch ⟨some 2, ⟨[], []⟩⟩ 5 2 rfl (by decide)⟩

/-- C5: an axis-motion event whose axis index is at or beyond the
stored axes length, and a button event whose button index is at or
beyond the stored buttons length, are silently discarded: the whole
state is returned unchanged and no error is raised (the handlers are
total functions). -/
theorem C5_out_of_range_drop (s : JoystickState) (axis button : Nat) (raw : ℤ) (st : Nat)
    (ha : s.data.axes.length ≤ axis) (hb : s.data.buttons.length ≤ button) :
    handleAxisEvent s axis raw = s ∧ handleButtonEvent s button st = s := by
  rcases s with ⟨j, d⟩
  simp only at ha hb
  cases j with
  | none => exact ⟨rfl, rfl⟩
  | some jid =>
    rw [handleAxisEvent_some, handleButtonEvent_some]
    exact ⟨if_neg (by omega), if_neg (by omega)⟩

/-- Witness for C5: axis event at index 5 and button event at index 7
on a store with one axis and one button. -/
theorem C5_out_of_range_drop_witness :
    (⟨some 1, ⟨[0], [false]⟩⟩ : JoystickState).data.axes.length ≤ 5 ∧
    (⟨some 1, ⟨[0], [false]⟩⟩ : JoystickState).data.buttons.length ≤ 7 ∧
    (handleAxisEvent ⟨some 1, ⟨[0], [false]⟩⟩ 5 9000 = ⟨some 1, ⟨[0], [false]⟩⟩ ∧
     handleButtonEvent ⟨some 1, ⟨[0], [false]⟩⟩ 7 1 = ⟨some 1, ⟨[0], [false]⟩⟩) :=
  ⟨by decide, by decide,
   C5_out_of_range_drop ⟨some 1, ⟨[0], [false]⟩⟩ 5 7 9000 1 (by decide) (by decide)⟩

/-- C1 counterexample: given the five-button snapshot where only
button 4 makes a false-to-true transition, zero commands are emitted
for index 4, refuting that every false-to-true transition yields
exactly one command (button indices outside the command table emit
nothing on an edge). -/
theorem C1_edge_counterexample :
    ([false, false, false, false, true].getD 4 false = true) ∧
    ([false, false, false, false, false].getD 4 false = false) ∧
    ¬ ((emittedCommands [false, false, false, false, false]
        [false, false, false, false, true]).countP (fun p => p.1 == 4) = 1) := by
  decide

/-- C1 (amended): for every button index inside the command table
(`i ≤ 3`), a command for `i` is emitted on a tick exactly when the
snapshot has the button pressed at an index inside the buttons
sequence and the previous state does not: one false-to-true transition
yields exactly one command, and a held (`true → true`) or released
(`true → false`) button yields zero. -/
theorem C1_edge_detection (last buttons : List Bool) (i : Nat) (hi : i ≤ 3) :
    (emittedCommands last buttons).countP (fun p => p.1 == i) =
      if i < buttons.length ∧ buttons.getD i false = true ∧ last.getD i false = false
      then 1 else 0 := by
  rw [countP_emittedCommands, emitAt_isSome, commandFor_isSome, decide_eq_true hi]
  cases hbt : buttons.getD i false <;> cases hl : last.getD i false <;>
    by_cases h1 : i < buttons.length <;> simp [h1, hbt, hl]

/-- Witness for C1: previous `[false]`, current `[true]` fires exactly
one command at index 0. -/
theorem C1_edge_detection_witness :
    (0 : Nat) ≤ 3 ∧
    (emittedCommands [false] [true]).countP (fun p => p.1 == 0) =
      (if 0 < [true].length ∧ [true].getD 0 false = true ∧ [false].getD 0 false = false
       then 1 else 0) :=
  ⟨by decide, C1_edge_detection [false] [true] 0 (by decide)⟩

/-- C3: the fixed button-index-to-command table: index 0 emits command
id 3, index 1 emits id 1, index 2 emits id 2, index 3 emits id 4, and
every index greater than 3 has no table entry and emits no command on
any tick. -/
theorem C3_command_table :
    commandFor 0 = some 3 ∧ commandFor 1 = some 1 ∧ commandFor 2 = some 2 ∧
    commandFor 3 = some 4 ∧
    ∀ i : Nat, 3 < i →
      commandFor i = none ∧
      ∀ last buttons : List Bool,
        (emittedCommands last buttons).countP (fun p => p.1 == i) = 0 := by
  refine ⟨rfl, rfl, rfl, rfl, fun i hi => ?_⟩
  have hnone : commandFor i = none := by
    have h := commandFor_isSome i
    rw [decide_eq_false (by omega)] at h
    exact Option.not_isSome_iff_eq_none.mp (by simp [h])
  refine ⟨hnone, fun last buttons => ?_⟩
  rw [countP_emittedCommands, emitAt_isSome, hnone]
  simp

/-- Witness for C3 at index 4: no table entry and no emission even on
an edge. -/
theorem C3_command_table_witness :
    3 < 4 ∧ commandFor 4 = none ∧
    (emittedCommands [] [false, false, false, false, true]).countP
      (fun p => p.1 == 4) = 0 :=
  ⟨by decide, (C3_command_table.2.2.2.2 4 (by decide)).1,
   (C3_command_table.2.2.2.2 4 (by decide)).2 [] [false, false, false, false, true]⟩

/-- C4 counterexample: resizing a store that still holds a previous
device's values (axis 0 at 1/2, button 0 pressed) to one axis and one
button keeps the stale values: the read does not return all-0.0 axes
and all-false buttons, because `std::vector::resize` preserves the
elements it keeps and only fills newly created ones. -/
theorem C4_resize_counterexample :
    (getData ⟨some 5, initJoystick ⟨[(1 : ℚ)/2], [true]⟩ 1 1⟩).axes.length = 1 ∧
    (getData ⟨some 5, initJoystick ⟨[(1 : ℚ)/2], [true]⟩ 1 1⟩).buttons.length = 1 ∧
    ¬ ((getData ⟨some 5, initJoystick ⟨[(1 : ℚ)/2], [true]⟩ 1 1⟩).axes =
        List.replicate 1 0 ∧
       (getData ⟨some 5, initJoystick ⟨[(1 : ℚ)/2], [true]⟩ 1 1⟩).buttons =
        List.replicate 1 false) := by
  refine ⟨rfl, rfl, fun h => ?_⟩
  have h1 := h.1
  simp only [getData, initJoystick, listResize] at h1
  norm_num at h1

/-- C4 (amended): after the store is resized for a device with `a`
axes and `b` buttons, a read returns axes of length exactly `a` and
buttons of length exactly `b`; elements beyond the previous lengths
are 0.0 / false, while elements kept from the previous contents are
preserved; in particular when the store was empty before the resize
(the initial device open) every element is 0.0 / false. -/
theorem C4_resize (j : Option ℤ) (d : JoystickData) (a b : Nat) :
    (getData ⟨j, initJoystick d a b⟩).axes.length = a ∧
    (getData ⟨j, initJoystick d a b⟩).buttons.length = b ∧
    (getData ⟨j, initJoystick d a b⟩).axes =
      d.axes.take a ++ List.replicate (a - d.axes.length) 0 ∧
    (getData ⟨j, initJoystick d a b⟩).buttons =
      d.buttons.take b ++ List.replicate (b - d.buttons.length) false ∧
    (d.axes = [] → (getData ⟨j, initJoystick d a b⟩).axes = List.replicate a 0) ∧
    (d.buttons = [] →
      (getData ⟨j, initJoystick d a b⟩).buttons = List.replicate b false) := by
  refine ⟨?_, ?_, rfl, rfl, ?_, ?_⟩
  · show (listResize d.axes a 0).length = a
    rw [listResize, List.length_append, List.length_take, List.length_replicate]
    omega
  · show (listResize d.buttons b false).length = b
    rw [listResize, List.length_append, List.length_take, List.length_replicate]
    omega
  · intro h
    show listResize d.axes a 0 = _
    rw [listResize, h]
    simp
  · intro h
    show listResize d.buttons b false = _
    rw [listResize, h]
    simp

/-- Witness for C4 at the spec's scenario: an empty store resized for
a device with 2 axes and 4 buttons reads back as two 0.0 axes and four
false buttons. -/
theorem C4_resize_witness :
    (getData ⟨some 0, initJoystick ⟨[], []⟩ 2 4⟩).axes.length = 2 ∧
    (getData ⟨some 0, initJoystick ⟨[], []⟩ 2 4⟩).axes = List.replicate 2 0 ∧
    (getData ⟨some 0, initJoystick ⟨[], []⟩ 2 4⟩).buttons = List.replicate 4 false :=
  ⟨(C4_resize (some 0) ⟨[], []⟩ 2 4).1,
   (C4_resize (some 0) ⟨[], []⟩ 2 4).2.2.2.2.1 rfl,
   (C4_resize (some 0) ⟨[], []⟩ 2 4).2.2.2.2.2 rfl⟩

/-- C9: an axis-motion event only ever touches its own axis index: the
device handle, the buttons sequence, the axes length and every other
axis value are unchanged, and when a device is open and the index is
in range the event's index receives exactly the normalized value;
symmetrically, a button event only ever touches its own button
index. -/
theorem C9_single_index_write (s : JoystickState) (axis : Nat) (raw : ℤ) (button st : Nat) :
    (handleAxisEvent s axis raw).joystick = s.joystick ∧
    (handleAxisEvent s axis raw).data.axes.length = s.data.axes.length ∧
    (handleAxisEvent s axis raw).data.buttons = s.data.buttons ∧
    (∀ k, k ≠ axis →
      (handleAxisEvent s axis raw).data.axes.getD k 0 = s.data.axes.getD k 0) ∧
    (s.joystick.isSome = true → axis < s.data.axes.length →
      (handleAxisEvent s axis raw).data.axes.getD axis 0 = normalizeAxis raw) ∧
    (handleButtonEvent s button st).joystick = s.joystick ∧
    (handleButtonEvent s button st).data.buttons.length = s.data.buttons.length ∧
    (handleButtonEvent s button st).data.axes = s.data.axes ∧
    (∀ k, k ≠ button →
      (handleButtonEvent s button st).data.buttons.getD k false =
        s.data.buttons.getD k false) ∧
    (s.joystick.isSome = true → button < s.data.buttons.length →
      (handleButtonEvent s button st).data.buttons.getD button false =
        (st == SDL_PRESSED)) := by
  rcases s with ⟨j, d⟩
  cases j with
  | none =>
    exact ⟨rfl, rfl, rfl, fun k _ => rfl, fun hj _ => by simp at hj,
      rfl, rfl, rfl, fun k _ => rfl, fun hj _ => by simp at hj⟩
  | some jid =>
    rw [handleAxisEvent_some, handleButtonEvent_some]
    refine ⟨by split <;> rfl, by split <;> simp, by split <;> rfl,
      fun k hk => ?_, fun _ hax => ?_,
      by split <;> rfl, by split <;> simp, by split <;> rfl,
      fun k hk => ?_, fun _ hbt => ?_⟩
    · split
      · exact getD_set_ne _ _ _ _ _ (Ne.symm hk)
      · rfl
    · rw [if_pos hax]
      exact getD_set_self _ _ _ _ hax
    · split
      · exact getD_set_ne _ _ _ _ _ (Ne.symm hk)
      · rfl
    · rw [if_pos hbt]
      exact getD_set_self _ _ _ _ hbt

/-- Witness for C9: writing axis 0 of a two-axis store changes neither
axis 1 nor the buttons, and stores the normalized value at axis 0. -/
theorem C9_single_index_write_witness :
    ((1 : Nat) ≠ 0) ∧
    (handleAxisEvent ⟨some 1, ⟨[0, 1], [false]⟩⟩ 0 20000).data.axes.getD 1 0 =
      (⟨some 1, ⟨[0, 1], [false]⟩⟩ : JoystickState).data.axes.getD 1 0 ∧
    (handleAxisEvent ⟨some 1, ⟨[0, 1], [false]⟩⟩ 0 20000).data.axes.getD 0 0 =
      normalizeAxis 20000 :=
  ⟨by decide,
   (C9_single_index_write ⟨some 1, ⟨[0, 1], [false]⟩⟩ 0 20000 0 0).2.2.2.1 1 (by decide),
   (C9_single_index_write ⟨some 1, ⟨[0, 1], [false]⟩⟩ 0 20000 0 0).2.2.2.2.1 rfl
     (by decide)⟩

/-! ### Clamp and deadzone lemmas -/

lemma seq_clamp_eq (v : ℚ) :
    (if (if v > 1 then 1 else v) < -1 then -1 else (if v > 1 then 1 else v)) =
      clampSpec v := by
  unfold clampSpec
  rcases lt_or_le 1 v with h1 | h1
  · rw [if_pos h1, if_neg (by norm_num : ¬(1 : ℚ) < -1), min_eq_left h1.le,
      max_eq_right (by norm_num : (-1 : ℚ) ≤ 1)]
  · rw [if_neg (not_lt.mpr h1)]
    rcases lt_or_le v (-1) with h2 | h2
    · rw [if_pos h2, min_eq_right h1, max_eq_left h2.le]
    · rw [if_neg (not_lt.mpr h2), min_eq_right h1, max_eq_right h2]

lemma normalizeAxis_eq (raw : ℤ) :
    normalizeAxis raw =
      if |clampSpec ((raw : ℚ) / 32767)| < DEADZONE then 0
      else clampSpec ((raw : ℚ) / 32767) := by
  simp only [normalizeAxis]
  rw [seq_clamp_eq]

lemma clampSpec_bounds (v : ℚ) : -1 ≤ clampSpec v ∧ clampSpec v ≤ 1 :=
  ⟨le_max_left _ _, max_le (by norm_num) (min_le_left _ _)⟩

lemma axisOK_zero : axisOK 0 :=
  ⟨by norm_num, by norm_num, fun _ => rfl⟩

lemma axisOK_normalizeAxis (raw : ℤ) : axisOK (normalizeAxis raw) := by
  rw [normalizeAxis_eq]
  by_cases h : |clampSpec ((raw : ℚ) / 32767)| < DEADZONE
  · rw [if_pos h]
    exact axisOK_zero
  · rw [if_neg h]
    exact ⟨(clampSpec_bounds _).1, (clampSpec_bounds _).2, fun hc => absurd hc h⟩

/-- C2: for every raw axis value in `[-32768, 32767]` the
normalization of `handleAxisEvent` returns the quotient by 32767
clamped to `[-1, 1]`, except that a clamped quotient whose absolute
value is below the deadzone 1/10 gives exactly 0; the output always
lies in `[-1, 1]`.  (Purity and determinism hold by construction:
`normalizeAxis` is a function of `raw` alone.) -/
theorem C2_normalizeAxis (raw : ℤ) (h1 : -32768 ≤ raw) (h2 : raw ≤ 32767) :
    normalizeAxis raw =
      (if |clampSpec ((raw : ℚ) / 32767)| < DEADZONE then 0
       else clampSpec ((raw : ℚ) / 32767)) ∧
    -1 ≤ normalizeAxis raw ∧ normalizeAxis raw ≤ 1 ∧
    (|clampSpec ((raw : ℚ) / 32767)| < DEADZONE → normalizeAxis raw = 0) := by
  have hOK := axisOK_normalizeAxis raw
  refine ⟨normalizeAxis_eq raw, hOK.1, hOK.2.1, fun hd => ?_⟩
  rw [normalizeAxis_eq, if_pos hd]

/-- Witness for C2 at raw value 1000 (inside the deadzone). -/
theorem C2_normalizeAxis_witness :
    ((-32768 : ℤ) ≤ 1000 ∧ (1000 : ℤ) ≤ 32767) ∧
    (normalizeAxis 1000 =
      (if |clampSpec (((1000 : ℤ) : ℚ) / 32767)| < DEADZONE then 0
       else clampSpec (((1000 : ℤ) : ℚ) / 32767)) ∧
     -1 ≤ normalizeAxis 1000 ∧ normalizeAxis 1000 ≤ 1 ∧
     (|clampSpec (((1000 : ℤ) : ℚ) / 32767)| < DEADZONE → normalizeAxis 1000 = 0)) :=
  ⟨⟨by decide, by decide⟩, C2_normalizeAxis 1000 (by decide) (by decide)⟩

/-- C6: the stored-axes invariant (every value in `[-1, 1]`, values
inside the deadzone exactly 0) holds for the store of a freshly opened
device resized from an empty store, and is preserved by the resize of
`initJoystick`, by axis-event handling (which writes only normalized
values) and by button-event handling (which does not touch axes). -/
theorem C6_axes_invariant (s : JoystickState) (d : JoystickData) (a b : Nat)
    (axis : Nat) (raw : ℤ) (button st : Nat) :
    axesInv (initJoystick ⟨[], []⟩ a b).axes ∧
    (axesInv d.axes → axesInv (initJoystick d a b).axes) ∧
    (axesInv s.data.axes → axesInv (handleAxisEvent s axis raw).data.axes) ∧
    (axesInv s.data.axes → axesInv (handleButtonEvent s button st).data.axes) := by
  have hpres : ∀ dd : JoystickData, axesInv dd.axes → axesInv (initJoystick dd a b).axes := by
    intro dd hinv v hv
    have hv2 : v ∈ dd.axes.take a ++ List.replicate (a - dd.axes.length) 0 := hv
    rcases List.mem_append.mp hv2 with hm | hm
    · exact hinv v (List.take_subset _ _ hm)
    · rw [(List.mem_replicate.mp hm).2]
      exact axisOK_zero
  refine ⟨hpres ⟨[], []⟩ (fun v hv => absurd hv (List.not_mem_nil v)), hpres d, ?_, ?_⟩
  · rcases s with ⟨j, dd⟩
    cases j with
    | none => exact fun h => h
    | some jid =>
      rw [handleAxisEvent_some]
      intro hinv
      split
      · intro v hv
        have hv2 : v ∈ dd.axes.set axis (normalizeAxis raw) := hv
        rcases List.mem_or_eq_of_mem_set hv2 with hm | hm
        · exact hinv v hm
        · rw [hm]
          exact axisOK_normalizeAxis raw
      · exact hinv
  · rcases s with ⟨j, dd⟩
    cases j with
    | none => exact fun h => h
    | some jid =>
      rw [handleButtonEvent_some]
      intro hinv
      split
      · exact hinv
      · exact hinv

/-- Witness for C6: the invariant holds for the one-axis store at
value 1 and is preserved by an axis event writing raw value 16000. -/
theorem C6_axes_invariant_witness :
    axesInv [(1 : ℚ)] ∧
    axesInv (handleAxisEvent ⟨some 1, ⟨[(1 : ℚ)], [false]⟩⟩ 0 16000).data.axes := by
  have h : axesInv [(1 : ℚ)] := by
    intro v hv
    rw [List.mem_singleton] at hv
    subst hv
    unfold axisOK
    refine ⟨by norm_num, le_refl 1, fun hc => ?_⟩
    norm_num [DEADZONE, abs_one] at hc
  exact ⟨h,
    (C6_axes_invariant ⟨some 1, ⟨[(1 : ℚ)], [false]⟩⟩ ⟨[], []⟩ 0 0 0 16000 0 0).2.2.1 h⟩
